import Mathlib

/-!
Shallow embedding of the command-dispatch, alias, and async-analysis core of
the alpacas-cli repository (src/alpacas-cli/commands/manager.py,
commands/alias.py, commands/analysis.py, commands/core.py,
analysis/core.py, utils/input_validation.py), together with theorems
settling the specification claims about it.

Python dicts keyed by strings are embedded as association lists with unique
keys (lookup returns the first binding); Python exceptions become an
explicit `Except`; the background thread of `AsyncAnalysisRunner` becomes a
phase-indexed state with an explicit step relation.
-/

/-- The single-quote character, used to build the Python f-string messages
of the source without writing a quote character directly. -/
def singleQuote : String := "\x27"

/-- Wrap a string in single quotes, as the Python f-strings of the source do
with `'{name}'`, and as Python `repr` renders a simple string containing no
quotes or escapes. -/
def quoted (s : String) : String := singleQuote ++ s ++ singleQuote

/-- `commands/core.py` `CommandResult`: the value every handler returns.
The opaque `data` payload is omitted: no claim observes it. -/
structure CommandResult where
  success : Bool
  message : Option String := none
  should_exit : Bool := false
  deriving DecidableEq

/-- A Python exception, as far as the embedded code observes one: its class
and its message (`str(e)`). -/
inductive PyExn where
  | valueError (msg : String)
  | runtimeError (msg : String)
  | other (msg : String)
  deriving DecidableEq

/-- Python `str(e)` on an exception: its message. -/
def PyExn.toMessage : PyExn → String
  | .valueError m => m
  | .runtimeError m => m
  | .other m => m

/-- Python `d.get(k)` / `k in d` on a string-keyed dict embedded as an
association list: the first binding of the key, if any. -/
def assocGet {α : Type} : List (String × α) → String → Option α
  | [], _ => none
  | p :: rest, k => if p.1 = k then some p.2 else assocGet rest k

/-- Python `del d[k]` on a string-keyed dict: since the keys of a dict are
unique, deleting the binding of `k` is dropping every pair whose key is
`k`. -/
def assocErase {α : Type} : List (String × α) → String → List (String × α)
  | [], _ => []
  | p :: rest, k => if p.1 = k then assocErase rest k else p :: assocErase rest k

/-- The alias table `self.aliases`: a dict from alias to command name. -/
abbrev AliasTable := List (String × String)

/-- The alias-relevant state of `CommandManager` (commands/manager.py) once
the lazy `_load_aliases` has populated `self.aliases`: the in-memory table
and the content of the persisted `configs/aliases.json` file. -/
structure ManagerState where
  aliases : AliasTable
  persisted : AliasTable
  deriving DecidableEq

namespace CommandManager

/-- `CommandManager._save_aliases`: rewrite the whole json file from the
in-memory table. -/
def save_aliases (st : ManagerState) : ManagerState :=
  { st with persisted := st.aliases }

/-- `CommandManager.add_alias`. Its body is `self._load_aliases()` (a no-op
once the table is loaded), the statement `[alias] = command`, then
`self._save_aliases()`. The middle statement destructures the string
`command` into the one-element pattern `[alias]`: when `len(command) == 1`
it merely rebinds the local parameter `alias`, and for any other length it
raises `ValueError` before the save; on no path is `self.aliases`
modified. -/
def add_alias (st : ManagerState) (al command : String) : Except PyExn ManagerState :=
  if command.length = 1 then
    Except.ok (save_aliases st)
  else if command.length = 0 then
    Except.error (.valueError "not enough values to unpack (expected 1, got 0)")
  else
    Except.error (.valueError "too many values to unpack (expected 1)")

/-- `CommandManager.remove_alias`: delete the key if present and persist. -/
def remove_alias (st : ManagerState) (al : String) : ManagerState :=
  if (assocGet st.aliases al).isSome then
    save_aliases { st with aliases := assocErase st.aliases al }
  else st

/-- `CommandManager.get_aliases`: a copy of the table (a pure value here). -/
def get_aliases (st : ManagerState) : AliasTable := st.aliases

/-- Alias resolution inside `CommandManager.execute_command`:
`self.aliases.get(command_name, command_name)`. -/
def resolve (aliases : AliasTable) (name : String) : String :=
  (assocGet aliases name).getD name

/-- The failure message `execute_command` builds for an unknown name. -/
def unknownCommandMessage (name : String) : String :=
  "Unknown command: " ++ name ++ "\nType " ++ quoted "help" ++ " for available commands."

/-- `CommandManager.execute_command`, parametrised by the registered command
names (the keys of `self.commands`) and by the behaviour of each handler
(`exec c` is what `self.commands[c].execute(self)` does: return a result or
raise). It resolves the alias and looks the resolved name up; a registered
handler is invoked with no try/except around the call, an unregistered name
yields the unknown-command failure result. -/
def execute_command (commands : List String)
    (exec : String → Except PyExn CommandResult)
    (aliases : AliasTable) (name : String) : Except PyExn CommandResult :=
  let actual := resolve aliases name
  if commands.contains actual then exec actual
  else Except.ok { success := false, message := some (unknownCommandMessage name) }

/-- What one iteration of `CommandManager.run_command_loop` does after the
input line has been read: whether the loop terminates, what it prints
beyond the result-independent spacing, and whether `stop_all_analyses` was
called. -/
structure LoopStepResult where
  exitLoop : Bool
  printed : Option String
  stoppedAllAnalyses : Bool
  deriving DecidableEq

/-- One iteration of `run_command_loop` on the (stripped, lowered) input
`name`: dispatch through `execute_command`; on an exception, stop all
analyses, print "An error occurred: ..." and continue the loop; on a
result with `should_exit`, stop all analyses and leave the loop; otherwise
print the message of a failed result when that message is truthy, and
continue. -/
def run_command_loop_step (commands : List String)
    (exec : String → Except PyExn CommandResult)
    (aliases : AliasTable) (name : String) : LoopStepResult :=
  match execute_command commands exec aliases name with
  | .error e =>
      { exitLoop := false,
        printed := some ("An error occurred: " ++ e.toMessage),
        stoppedAllAnalyses := true }
  | .ok r =>
      if r.should_exit then
        { exitLoop := true, printed := none, stoppedAllAnalyses := true }
      else
        { exitLoop := false,
          printed := match r.message with
            | some m => if r.success = false ∧ m ≠ "" then some m else none
            | none => none,
          stoppedAllAnalyses := false }

end CommandManager

namespace AliasCommand

/-- `AliasCommand._set_alias` (commands/alias.py), once the two validated
inputs `cmd_name` and `alias` have been read; an exception raised inside it
(in particular by `context.add_alias`) propagates to the caller. -/
def set_alias_core (commands : List String) (st : ManagerState)
    (cmd_name al : String) : Except PyExn (CommandResult × ManagerState) :=
  if commands.contains cmd_name = false then
    Except.ok ({ success := false,
                 message := some ("Command " ++ quoted cmd_name ++ " does not exist.") }, st)
  else if commands.contains al ∨ (assocGet (CommandManager.get_aliases st) al).isSome then
    Except.ok ({ success := false,
                 message := some ("Alias " ++ quoted al ++
                   " already exists or conflicts with a command name.") }, st)
  else
    match CommandManager.add_alias st al cmd_name with
    | .ok st' =>
        Except.ok ({ success := true,
                     message := some ("Alias " ++ quoted al ++ " created for command " ++
                       quoted cmd_name) }, st')
    | .error e => Except.error e

/-- The `set` path of `AliasCommand.execute`: `_set_alias` under the
surrounding `try`/`except Exception` of `execute`, which turns any
exception into the failure "Error managing aliases: ...". -/
def set_alias (commands : List String) (st : ManagerState)
    (cmd_name al : String) : CommandResult × ManagerState :=
  match set_alias_core commands st cmd_name al with
  | .ok x => x
  | .error e =>
      ({ success := false, message := some ("Error managing aliases: " ++ e.toMessage) }, st)

/-- `AliasCommand._remove_alias`, once the validated `alias` input has been
read (the prompt is only reached when the table is non-empty). -/
def remove_alias (st : ManagerState) (al : String) : CommandResult × ManagerState :=
  if CommandManager.get_aliases st = [] then
    ({ success := false, message := some "No aliases defined." }, st)
  else if (assocGet (CommandManager.get_aliases st) al).isNone then
    ({ success := false, message := some ("Alias " ++ quoted al ++ " does not exist.") }, st)
  else
    ({ success := true, message := some ("Alias " ++ quoted al ++ " removed.") },
     CommandManager.remove_alias st al)

end AliasCommand

/-- `commands/core.py` `AnalysisResult`; the `data` dict is embedded as an
association list. -/
structure AnalysisResult where
  title : String
  data : List (String × String)
  summary : String
  deriving DecidableEq

/-- The outcome recorded by `AsyncAnalysisRunner._run`: `self.result =
self.analysis.run()` on normal return, `self.exception = e` when the body
raises. -/
inductive RunOutcome where
  | normal (r : AnalysisResult)
  | raised (e : PyExn)
  deriving DecidableEq

/-- The phase of the runner's thread: not yet started; started with the body
of `_run` still executing (`thread.is_alive()` true); or `_run` finished
with its outcome recorded. -/
inductive RunnerPhase where
  | notStarted
  | running
  | finished (o : RunOutcome)
  deriving DecidableEq

/-- Whether the phase is a terminal one. -/
def RunnerPhase.isFinished : RunnerPhase → Bool
  | .finished _ => true
  | _ => false

/-- The observable state of an `analysis/core.py` `AsyncAnalysisRunner`
together with the `_stop_requested` flag of its wrapped
`StoppableAnalysis` (commands/core.py). The runner's `result` and
`exception` slots are determined by the phase: both `None` until `_run`
finishes, then exactly one of them set. -/
structure RunnerState where
  phase : RunnerPhase
  stopRequested : Bool
  deriving DecidableEq

namespace AsyncAnalysisRunner

/-- The runner's `self.result` slot: `None` until `_run` stored a normal
outcome. -/
def result : RunnerState → Option AnalysisResult
  | ⟨.finished (.normal r), _⟩ => some r
  | _ => none

/-- The runner's `self.exception` slot: `None` until `_run` captured a
raised exception. -/
def exception : RunnerState → Option PyExn
  | ⟨.finished (.raised e), _⟩ => some e
  | _ => none

/-- `AsyncAnalysisRunner.is_running`: `self.thread.is_alive()`. -/
def is_running (s : RunnerState) : Bool :=
  match s.phase with
  | .running => true
  | _ => false

/-- `AsyncAnalysisRunner.start`: `self.thread.start()`. A
`threading.Thread` is single-use: the standard library's `start` raises
`RuntimeError("threads can only be started once")` whenever `start` was
already called on the same thread object, and a successful first call
makes the thread alive, executing `_run`; it does not run `_run` a second
time. -/
def start (s : RunnerState) : Except PyExn RunnerState :=
  match s.phase with
  | .notStarted => Except.ok { s with phase := .running }
  | _ => Except.error (.runtimeError "threads can only be started once")

/-- `AsyncAnalysisRunner.stop`: `self.analysis.stop()`, i.e.
`StoppableAnalysis.stop`, which sets `self._stop_requested = True` and
returns; it reads no other state and raises nothing. -/
def stop (s : RunnerState) : RunnerState :=
  { s with stopRequested := true }

/-- `StoppableAnalysis.should_stop`. -/
def should_stop (s : RunnerState) : Bool := s.stopRequested

/-- `AsyncAnalysisRunner.get_result`: `None` while the thread is alive;
afterwards re-raise the captured exception if one was recorded (an
exception object is always truthy), else return the captured result. A
total function of the snapshot: it inspects the slots and returns at once,
never blocking. -/
def get_result (s : RunnerState) : Except PyExn (Option AnalysisResult) :=
  if is_running s then Except.ok none
  else match exception s with
    | some e => Except.error e
    | none => Except.ok (result s)

/-- The events that change a runner's observable state: the scheduler
begins executing `_run` when `start` is called; the body of `_run` returns
or raises, recording its outcome; the main thread calls `stop()`. -/
inductive RunnerStep : RunnerState → RunnerState → Prop where
  | beginRun (s : RunnerState) : s.phase = .notStarted →
      RunnerStep s { s with phase := .running }
  | finishRun (s : RunnerState) (o : RunOutcome) : s.phase = .running →
      RunnerStep s { s with phase := .finished o }
  | stopCall (s : RunnerState) : RunnerStep s (stop s)

end AsyncAnalysisRunner

namespace AnalysisCommand

/-- The table `self.running_analyses : id -> runner` of `AnalysisCommand`
(commands/analysis.py); entries share the runner objects, so signalling a
runner updates the entry in place. -/
abbrev RunnerTable := List (String × RunnerState)

/-- The whitespace characters Python `str.strip` removes: space, tab,
newline, carriage return, vertical tab, form feed. -/
def isPySpace (c : Char) : Bool :=
  c = ' ' || c = '\t' || c = '\n' || c = '\r' || c = Char.ofNat 11 || c = Char.ofNat 12

/-- Python `value.strip()`. -/
def pyStrip (s : String) : String :=
  String.mk (((s.toList.dropWhile isPySpace).reverse.dropWhile isPySpace).reverse)

/-- `utils/input_validation.py` `is_non_empty_string`: `value` is a string
whose stripped form is truthy. -/
def is_non_empty_string (value : String) : Bool := !(pyStrip value == "")

/-- `utils/input_validation.py` `is_valid_analysis_subcommand`: membership
in the supplied choice list. -/
def is_valid_analysis_subcommand (value : String) (valid_choices : List String) : Bool :=
  valid_choices.contains value

/-- The `valid_analysis_subcommands` list built in
`AnalysisCommand.execute`: `["status", "stop"] + list(self.analyses.keys())`.
It holds the literal token `"stop"`, not lines of the form `"stop <id>"`. -/
def valid_analysis_subcommands (analyses : List String) : List String :=
  "status" :: "stop" :: analyses

/-- Whether `get_validated_input` in `AnalysisCommand.execute` accepts the
typed line; it re-prompts until every validator passes, so `execute` only
ever proceeds on an accepted `choice`. -/
def analysis_choice_accepted (value : String) (analyses : List String) : Bool :=
  is_non_empty_string value &&
    is_valid_analysis_subcommand value (valid_analysis_subcommands analyses)

/-- Helper for `pySplitFirst`: walk the characters, accumulating until the
first space. -/
def pySplitFirstGo : List Char → List Char → List String
  | [], acc => [String.mk acc.reverse]
  | c :: cs, acc =>
      if c = ' ' then [String.mk acc.reverse, String.mk cs]
      else pySplitFirstGo cs (c :: acc)

/-- Python `s.split(" ", 1)`: split at the first space only. -/
def pySplitFirst (s : String) : List String :=
  pySplitFirstGo s.toList []

/-- Python `str` applied to a list of simple strings:
`str(['stop', 'abc'])` renders as a bracketed, comma-separated sequence of
single-quoted items. -/
def pyStrOfStrList (xs : List String) : String :=
  "[" ++ String.intercalate ", " (xs.map quoted) ++ "]"

/-- The id the `stop` branch of `AnalysisCommand.execute` computes:
`analysis_id = str(choice.split(" ", 1))` — the `str` of the whole split
list, not its second element. -/
def parsed_stop_id (choice : String) : String :=
  pyStrOfStrList (pySplitFirst choice)

/-- `AnalysisCommand._stop_analysis`: look the id up in
`self.running_analyses`; fail if it is absent or not running, else set the
runner's cooperative stop flag and report success. -/
def stop_analysis (running : RunnerTable) (analysis_id : String) :
    CommandResult × RunnerTable :=
  match assocGet running analysis_id with
  | none =>
      ({ success := false,
         message := some ("No running analysis with ID " ++ quoted analysis_id ++ ".") },
       running)
  | some r =>
      if AsyncAnalysisRunner.is_running r = false then
        ({ success := false,
           message := some ("No running analysis with ID " ++ quoted analysis_id ++ ".") },
         running)
      else
        ({ success := true,
           message := some ("Stop signal sent to analysis with ID " ++ quoted analysis_id ++ ".") },
         running.map (fun p => if p.1 = analysis_id then (p.1, AsyncAnalysisRunner.stop p.2) else p))

end AnalysisCommand

/-! ## Helper lemmas -/

/-- Looking up the erased key finds nothing. -/
theorem assocGet_assocErase_self {α : Type} (t : List (String × α)) (k : String) :
    assocGet (assocErase t k) k = none := by
  induction t with
  | nil => rfl
  | cons p rest ih =>
      by_cases h : p.1 = k
      · simp [assocErase, h, ih]
      · simp [assocErase, assocGet, h, ih]

/-- Erasing one key leaves the lookup of every other key unchanged. -/
theorem assocGet_assocErase_ne {α : Type} (t : List (String × α)) (k b : String)
    (hne : b ≠ k) : assocGet (assocErase t k) b = assocGet t b := by
  have hkb : ¬ (k = b) := fun hh => hne hh.symm
  induction t with
  | nil => rfl
  | cons p rest ih =>
      by_cases h : p.1 = k
      · simp [assocErase, assocGet, h, hkb, ih]
      · by_cases hb : p.1 = b
        · simp [assocErase, assocGet, h, hb, hne]
        · simp [assocErase, assocGet, h, hb, ih]

/-- A successful lookup needs a non-empty table. -/
theorem assocGet_isSome_ne_nil {α : Type} (t : List (String × α)) (k : String)
    (h : (assocGet t k).isSome = true) : t ≠ [] := by
  intro hnil
  subst hnil
  simp [assocGet] at h

/-! ## Claim theorems -/

/-- C4: dispatching a typed name that is neither a registered command name
nor an alias mapping to a registered command name returns (rather than
raises) a `CommandResult` with `success = false` whose message is
`"Unknown command: <name>\nType 'help' for available commands."` — in
particular the message contains `"Unknown command"`. -/
theorem unknown_command_returns_failure
    (commands : List String) (exec : String → Except PyExn CommandResult)
    (aliases : AliasTable) (name : String)
    (h1 : commands.contains name = false)
    (h2 : ∀ c, assocGet aliases name = some c → commands.contains c = false) :
    CommandManager.execute_command commands exec aliases name =
      Except.ok { success := false,
                  message := some (CommandManager.unknownCommandMessage name) } := by
  have h1m : name ∉ commands := by simpa using h1
  unfold CommandManager.execute_command CommandManager.resolve
  cases hc : assocGet aliases name with
  | none => simp [hc, h1m]
  | some c =>
      have h2m : c ∉ commands := by simpa using h2 c hc
      simp [hc, h2m]

/-- Witness for C4: the spec's scenario 3, name `"zzz"` against a registry
holding only `"help"` and an empty alias table. -/
theorem unknown_command_returns_failure_witness :
    CommandManager.execute_command ["help"] (fun _ => Except.ok { success := true }) [] "zzz" =
      Except.ok { success := false,
                  message := some (CommandManager.unknownCommandMessage "zzz") } :=
  unknown_command_returns_failure ["help"] (fun _ => Except.ok { success := true }) [] "zzz"
    (by decide) (fun c hc => by simp [assocGet] at hc)

/-- C3 counterexample: `execute_command` wraps the handler call in no
try/except, so a handler that raises makes dispatch propagate the
exception to its caller instead of returning a failure `CommandResult`:
with `"boom"` registered to a handler that raises `Exception("kaboom")`,
dispatching `"boom"` evaluates to the raised exception, not to an `ok`
result. -/
theorem execute_command_propagates_handler_exception :
    CommandManager.execute_command ["boom"]
      (fun _ => Except.error (.other "kaboom")) [] "boom" =
      Except.error (.other "kaboom") := rfl

/-- C3 as amended: a handler exception is not converted at the dispatch
boundary — `execute_command` propagates it unchanged — and it is
`run_command_loop` that catches it: the loop's iteration stops all
analyses, prints `"An error occurred: <description>"`, and continues the
loop (so handlers still never crash the loop). -/
theorem handler_exception_caught_in_loop_not_dispatch
    (commands : List String) (exec : String → Except PyExn CommandResult)
    (aliases : AliasTable) (name : String) (e : PyExn)
    (hmem : commands.contains (CommandManager.resolve aliases name) = true)
    (hexec : exec (CommandManager.resolve aliases name) = Except.error e) :
    CommandManager.execute_command commands exec aliases name = Except.error e ∧
    CommandManager.run_command_loop_step commands exec aliases name =
      { exitLoop := false,
        printed := some ("An error occurred: " ++ e.toMessage),
        stoppedAllAnalyses := true } := by
  have hmemm : CommandManager.resolve aliases name ∈ commands := by simpa using hmem
  have h1 : CommandManager.execute_command commands exec aliases name = Except.error e := by
    unfold CommandManager.execute_command
    simp [hmemm, hexec]
  refine ⟨h1, ?_⟩
  unfold CommandManager.run_command_loop_step
  rw [h1]

/-- Witness for the amended C3: a registry holding `"list"` whose handler
raises `Exception("kaboom")`. -/
theorem handler_exception_caught_in_loop_witness :
    CommandManager.execute_command ["list"]
        (fun _ => Except.error (.other "kaboom")) [] "list" =
      Except.error (.other "kaboom") ∧
    CommandManager.run_command_loop_step ["list"]
        (fun _ => Except.error (.other "kaboom")) [] "list" =
      { exitLoop := false,
        printed := some "An error occurred: kaboom",
        stoppedAllAnalyses := true } :=
  handler_exception_caught_in_loop_not_dispatch ["list"]
    (fun _ => Except.error (.other "kaboom")) [] "list" (.other "kaboom")
    (by decide) rfl

/-- C1: evaluation of the code at the claim's failing inputs. The statement
`[alias] = command` in `CommandManager.add_alias` never stores the alias.
(a) For the spec's own scenario — alias `"b"` for the multi-character
registered command `"load"` — the destructuring raises `ValueError`, which
`AliasCommand.execute` converts into the failure "Error managing aliases:
too many values to unpack (expected 1)"; the set is never reported
successful. (b) For a registry holding a one-character command `"x"`, the
set of alias `"a"` for `"x"` IS reported successful ("Alias 'a' created
for command 'x'"), yet the manager state is completely unchanged, so the
subsequent lookup resolves `"a"` to itself and dispatching `"a"` yields
the unknown-command failure while dispatching `"x"` runs the handler —
refuting the round-trip the claim states. -/
theorem set_alias_success_without_roundtrip :
    AliasCommand.set_alias ["load"] ⟨[], []⟩ "load" "b" =
      ({ success := false,
         message := some "Error managing aliases: too many values to unpack (expected 1)" },
       ⟨[], []⟩) ∧
    AliasCommand.set_alias ["x"] ⟨[], []⟩ "x" "a" =
      ({ success := true,
         message := some ("Alias " ++ quoted "a" ++ " created for command " ++ quoted "x") },
       ⟨[], []⟩) ∧
    CommandManager.resolve [] "a" = "a" ∧
    CommandManager.execute_command ["x"] (fun _ => Except.ok { success := true }) [] "a" =
      Except.ok { success := false,
                  message := some (CommandManager.unknownCommandMessage "a") } ∧
    CommandManager.execute_command ["x"] (fun _ => Except.ok { success := true }) [] "x" =
      Except.ok { success := true } :=
  ⟨rfl, rfl, rfl, rfl, rfl⟩

/-- C2: evaluation of the code at the claim's failing input, a runner table
holding the running runner `"abc"` and the typed line `"stop abc"`.
First, the line never passes `AnalysisCommand.execute`'s validation, whose
valid-choice list holds only the bare token `"stop"`, so
`get_validated_input` re-prompts forever and the stop branch is never
reached with an id. Second, even taking `choice = "stop abc"` as given,
the branch computes `analysis_id = str(choice.split(" ", 1))` — the
Python `str` of the list `['stop', 'abc']` — which is not a key of the
runner table, so `_stop_analysis` reports "No running analysis" and the
runner's cooperative stop flag stays unset; looking up the real id `"abc"`
instead would have set the flag and reported success. -/
theorem stop_subcommand_never_stops_runner :
    AnalysisCommand.analysis_choice_accepted "stop abc" ["sample_analysis"] = false ∧
    AnalysisCommand.parsed_stop_id "stop abc" =
      "[" ++ quoted "stop" ++ ", " ++ quoted "abc" ++ "]" ∧
    AnalysisCommand.stop_analysis [("abc", ⟨.running, false⟩)]
        (AnalysisCommand.parsed_stop_id "stop abc") =
      ({ success := false,
         message := some ("No running analysis with ID " ++
           quoted (AnalysisCommand.parsed_stop_id "stop abc") ++ ".") },
       [("abc", ⟨.running, false⟩)]) ∧
    AnalysisCommand.stop_analysis [("abc", ⟨.running, false⟩)] "abc" =
      ({ success := true,
         message := some ("Stop signal sent to analysis with ID " ++ quoted "abc" ++ ".") },
       [("abc", ⟨.running, true⟩)]) :=
  ⟨rfl, rfl, rfl, rfl⟩

/-- C7: once the alias prompt has been reached (the entered command name is
registered — with an unregistered command name the flow fails earlier and
never reads an alias), an alias equal to an existing command name or to an
existing alias key makes the set operation fail with the conflict message,
returning the manager state — in-memory table and persisted file alike —
unchanged. -/
theorem set_alias_conflict_rejected
    (commands : List String) (st : ManagerState) (cmd_name al : String)
    (h1 : commands.contains cmd_name = true)
    (h2 : commands.contains al = true ∨ (assocGet st.aliases al).isSome = true) :
    AliasCommand.set_alias commands st cmd_name al =
      ({ success := false,
         message := some ("Alias " ++ quoted al ++
           " already exists or conflicts with a command name.") }, st) := by
  have h1m : cmd_name ∈ commands := by simpa using h1
  unfold AliasCommand.set_alias AliasCommand.set_alias_core CommandManager.get_aliases
  rcases h2 with h | h
  · have hm : al ∈ commands := by simpa using h
    simp [h1m, hm]
  · simp [h1m, h]

/-- Witness for C7: registry `["load"]`, empty tables, alias `"load"`
conflicting with the command name `"load"`. -/
theorem set_alias_conflict_rejected_witness :
    AliasCommand.set_alias ["load"] ⟨[], []⟩ "load" "load" =
      ({ success := false,
         message := some ("Alias " ++ quoted "load" ++
           " already exists or conflicts with a command name.") }, ⟨[], []⟩) :=
  set_alias_conflict_rejected ["load"] ⟨[], []⟩ "load" "load" (by decide)
    (Or.inl (by decide))

/-- C8: removing an alias absent from the table yields a failure result and
leaves the manager state unchanged; removing a present alias reports
success, removes exactly that entry — its lookup becomes `none` while the
lookup of every other key is unchanged — and persists the resulting
table. -/
theorem remove_alias_frame
    (st : ManagerState) (al : String) :
    (assocGet st.aliases al = none →
      (AliasCommand.remove_alias st al).1.success = false ∧
      (AliasCommand.remove_alias st al).2 = st) ∧
    ((assocGet st.aliases al).isSome = true →
      (AliasCommand.remove_alias st al).1.success = true ∧
      assocGet (AliasCommand.remove_alias st al).2.aliases al = none ∧
      (∀ b, b ≠ al →
        assocGet (AliasCommand.remove_alias st al).2.aliases b = assocGet st.aliases b) ∧
      (AliasCommand.remove_alias st al).2.persisted =
        (AliasCommand.remove_alias st al).2.aliases) := by
  constructor
  · intro h
    unfold AliasCommand.remove_alias CommandManager.get_aliases
    by_cases hnil : st.aliases = []
    · simp [hnil]
    · simp [hnil, h]
  · intro h
    have hnil : st.aliases ≠ [] := assocGet_isSome_ne_nil st.aliases al h
    have hnone : ¬ (assocGet st.aliases al).isNone := by
      simp [Option.isNone_iff_eq_none]
      intro hh
      rw [hh] at h
      simp at h
    unfold AliasCommand.remove_alias CommandManager.get_aliases
      CommandManager.remove_alias CommandManager.save_aliases
    refine ⟨?_, ?_, ?_, ?_⟩
    · simp [hnil, hnone]
    · simp [hnil, hnone, h, assocGet_assocErase_self]
    · intro b hb
      simp [hnil, hnone, h, assocGet_assocErase_ne st.aliases al b hb]
    · simp [hnil, hnone, h]

/-- Witness for C8, on the table `{"b": "load"}`: removing the absent alias
`"z"` leaves the state intact, removing `"b"` succeeds, empties its lookup,
keeps the lookup of `"c"`, and persists the new table. -/
theorem remove_alias_frame_witness :
    (AliasCommand.remove_alias ⟨[("b", "load")], [("b", "load")]⟩ "z").2 =
      ⟨[("b", "load")], [("b", "load")]⟩ ∧
    (AliasCommand.remove_alias ⟨[("b", "load")], [("b", "load")]⟩ "b").1.success = true ∧
    assocGet (AliasCommand.remove_alias ⟨[("b", "load")], [("b", "load")]⟩ "b").2.aliases "b" =
      none ∧
    assocGet (AliasCommand.remove_alias ⟨[("b", "load")], [("b", "load")]⟩ "b").2.aliases "c" =
      assocGet [("b", "load")] "c" ∧
    (AliasCommand.remove_alias ⟨[("b", "load")], [("b", "load")]⟩ "b").2.persisted =
      (AliasCommand.remove_alias ⟨[("b", "load")], [("b", "load")]⟩ "b").2.aliases :=
  ⟨((remove_alias_frame ⟨[("b", "load")], [("b", "load")]⟩ "z").1 (by decide)).2,
   ((remove_alias_frame ⟨[("b", "load")], [("b", "load")]⟩ "b").2 (by decide)).1,
   ((remove_alias_frame ⟨[("b", "load")], [("b", "load")]⟩ "b").2 (by decide)).2.1,
   ((remove_alias_frame ⟨[("b", "load")], [("b", "load")]⟩ "b").2 (by decide)).2.2.1 "c"
     (by decide),
   ((remove_alias_frame ⟨[("b", "load")], [("b", "load")]⟩ "b").2 (by decide)).2.2.2⟩

/-- C5: `get_result` — a total, hence non-blocking, function of the observed
runner snapshot — returns `None` at every snapshot where the thread is
still alive; once the thread has finished it returns the captured output
when the body returned normally, and re-raises the captured exception when
the body raised. -/
theorem get_result_by_phase (s : RunnerState) (r : AnalysisResult) (e : PyExn) :
    (AsyncAnalysisRunner.is_running s = true →
      AsyncAnalysisRunner.get_result s = Except.ok none) ∧
    (s.phase = .finished (.normal r) →
      AsyncAnalysisRunner.get_result s = Except.ok (some r)) ∧
    (s.phase = .finished (.raised e) →
      AsyncAnalysisRunner.get_result s = Except.error e) := by
  obtain ⟨ph, fl⟩ := s
  refine ⟨?_, ?_, ?_⟩ <;> intro h
  · cases ph <;> simp_all [AsyncAnalysisRunner.is_running, AsyncAnalysisRunner.get_result,
      AsyncAnalysisRunner.exception, AsyncAnalysisRunner.result]
  · simp only at h
    subst h
    rfl
  · simp only at h
    subst h
    rfl

/-- Witness for C5: the three `get_result` cases at concrete snapshots of
the sample analysis. -/
theorem get_result_by_phase_witness :
    AsyncAnalysisRunner.get_result ⟨.running, false⟩ = Except.ok none ∧
    AsyncAnalysisRunner.get_result
        ⟨.finished (.normal ⟨"Sample Analysis", [], "Stopped early."⟩), true⟩ =
      Except.ok (some ⟨"Sample Analysis", [], "Stopped early."⟩) ∧
    AsyncAnalysisRunner.get_result ⟨.finished (.raised (.other "boom")), false⟩ =
      Except.error (.other "boom") :=
  ⟨(get_result_by_phase ⟨.running, false⟩ ⟨"Sample Analysis", [], "Stopped early."⟩
      (.other "boom")).1 rfl,
   (get_result_by_phase ⟨.finished (.normal ⟨"Sample Analysis", [], "Stopped early."⟩), true⟩
      ⟨"Sample Analysis", [], "Stopped early."⟩ (.other "boom")).2.1 rfl,
   (get_result_by_phase ⟨.finished (.raised (.other "boom")), false⟩
      ⟨"Sample Analysis", [], "Stopped early."⟩ (.other "boom")).2.2 rfl⟩

/-- C6: the runner lifecycle invariant. A successful `start` leaves the
runner with `is_running` true; at every state where `is_running` is true,
`get_result` returns `None`; and along any event of the runner's step
relation, `is_running` can turn from true to false only by the wrapped
body finishing — the post-state's phase is terminal, holding the body's
outcome. -/
theorem runner_lifecycle_invariant (s s' : RunnerState) :
    (AsyncAnalysisRunner.start s = Except.ok s' →
      AsyncAnalysisRunner.is_running s' = true) ∧
    (AsyncAnalysisRunner.is_running s = true →
      AsyncAnalysisRunner.get_result s = Except.ok none) ∧
    (AsyncAnalysisRunner.RunnerStep s s' →
      AsyncAnalysisRunner.is_running s = true →
      AsyncAnalysisRunner.is_running s' = false →
      s'.phase.isFinished = true) := by
  refine ⟨?_, ?_, ?_⟩
  · intro h
    unfold AsyncAnalysisRunner.start at h
    cases hp : s.phase <;> rw [hp] at h <;> cases h
    rfl
  · intro h
    obtain ⟨ph, fl⟩ := s
    cases ph <;> simp_all [AsyncAnalysisRunner.is_running, AsyncAnalysisRunner.get_result,
      AsyncAnalysisRunner.exception, AsyncAnalysisRunner.result]
  · intro hstep h1 h2
    cases hstep with
    | beginRun hp => simp_all [AsyncAnalysisRunner.is_running, hp]
    | finishRun o hp => rfl
    | stopCall => simp_all [AsyncAnalysisRunner.stop, AsyncAnalysisRunner.is_running]

/-- Witness for C6: a fresh runner started into the running phase, polled
there, and finishing with the stopped-early outcome of the sample
analysis. -/
theorem runner_lifecycle_invariant_witness :
    AsyncAnalysisRunner.is_running ⟨.running, false⟩ = true ∧
    AsyncAnalysisRunner.get_result ⟨.running, false⟩ = Except.ok none ∧
    RunnerPhase.isFinished
      (RunnerState.phase ⟨.finished (.normal ⟨"Sample Analysis", [], "Stopped early."⟩), false⟩) =
      true :=
  ⟨(runner_lifecycle_invariant ⟨.notStarted, false⟩ ⟨.running, false⟩).1 rfl,
   (runner_lifecycle_invariant ⟨.running, false⟩ ⟨.running, false⟩).2.1 rfl,
   (runner_lifecycle_invariant ⟨.running, false⟩
      ⟨.finished (.normal ⟨"Sample Analysis", [], "Stopped early."⟩), false⟩).2.2
     (AsyncAnalysisRunner.RunnerStep.finishRun ⟨.running, false⟩
       (.normal ⟨"Sample Analysis", [], "Stopped early."⟩) rfl) rfl rfl⟩

/-- C9: `stop` on a runner in any state — not yet started, running, or
finished either way — is the total function that sets the wrapped
operation's cooperative stop flag and changes nothing else: the result is
exactly the same state with `stopRequested` true (so `should_stop` reports
true afterwards), and no exception is raised. -/
theorem stop_only_sets_flag (s : RunnerState) :
    AsyncAnalysisRunner.stop s = ⟨s.phase, true⟩ ∧
    AsyncAnalysisRunner.should_stop (AsyncAnalysisRunner.stop s) = true :=
  ⟨rfl, rfl⟩

/-- C10: `start` on a runner whose first `start` succeeded raises
`RuntimeError("threads can only be started once")` — the single-use
`threading.Thread` refuses a second start, so a double start is neither a
silent no-op nor a second execution of the wrapped operation. -/
theorem start_twice_raises (s s' : RunnerState)
    (h : AsyncAnalysisRunner.start s = Except.ok s') :
    AsyncAnalysisRunner.start s' =
      Except.error (.runtimeError "threads can only be started once") := by
  unfold AsyncAnalysisRunner.start at h ⊢
  cases hp : s.phase <;> rw [hp] at h <;> cases h
  rfl

/-- Witness for C10: a fresh runner, started once. -/
theorem start_twice_raises_witness :
    AsyncAnalysisRunner.start ⟨.running, false⟩ =
      Except.error (.runtimeError "threads can only be started once") :=
  start_twice_raises ⟨.notStarted, false⟩ ⟨.running, false⟩ rfl
